import Mathlib

/-!
Shallow embedding of `tide-lambda-listener` (`src/lib.rs`): a Tide
`Listener` that bridges a Tide HTTP server to the AWS Lambda runtime API.
The bridge polls `2018-06-01/runtime/invocation/next`, translates the
delivered event envelope into an `http_types` request, runs it through the
server, and POSTs either the encoded response or an error diagnostic back
to the runtime.  Transport and JSON-parse outcomes of the runtime API are
modelled as oracles (`IterEnv`); everything the bridge itself computes is
embedded as executable Lean functions, and each loop iteration is recorded
as a trace of `Effect`s.
-/

namespace TideLambdaListener

/-! ## UTF-8, as used by Rust `String::from_utf8` / string byte encoding -/

/-- Encode one unicode scalar value as its UTF-8 byte sequence. -/
def utf8Char (c : Nat) : List Nat :=
  if c < 0x80 then [c]
  else if c < 0x800 then [0xC0 + c / 0x40, 0x80 + c % 0x40]
  else if c < 0x10000 then [0xE0 + c / 0x1000, 0x80 + (c / 0x40) % 0x40, 0x80 + c % 0x40]
  else [0xF0 + c / 0x40000, 0x80 + (c / 0x1000) % 0x40, 0x80 + (c / 0x40) % 0x40, 0x80 + c % 0x40]

/-- The UTF-8 bytes of a string (what Rust's `String` stores). -/
def utf8Bytes (s : String) : List Nat :=
  (s.data.map (fun ch => utf8Char ch.toNat)).flatten

/-- Whether a byte is a UTF-8 continuation byte (`0x80 ..= 0xBF`). -/
def contByte (b : Nat) : Bool := decide (0x80 ≤ b) && decide (b < 0xC0)

/-- Decode a two-byte UTF-8 sequence starting with leading byte `b1`
(already known to be in `0xC2 ..= 0xDF`). -/
def decodeTwo (b1 : Nat) : List Nat → Option (Nat × List Nat)
  | b2 :: rest2 =>
    if contByte b2 then some ((b1 - 0xC0) * 64 + (b2 - 0x80), rest2) else none
  | [] => none

/-- Decode a three-byte UTF-8 sequence starting with leading byte `b1`
(already known to be in `0xE0 ..= 0xEF`), rejecting overlong forms and
surrogate code points. -/
def decodeThree (b1 : Nat) : List Nat → Option (Nat × List Nat)
  | b2 :: b3 :: rest3 =>
    let cp := (b1 - 0xE0) * 4096 + (b2 - 0x80) * 64 + (b3 - 0x80)
    if contByte b2 && contByte b3 && decide (0x800 ≤ cp) &&
        !(decide (0xD800 ≤ cp) && decide (cp ≤ 0xDFFF)) then
      some (cp, rest3)
    else none
  | _ => none

/-- Decode a four-byte UTF-8 sequence starting with leading byte `b1`
(already known to be in `0xF0 ..= 0xF4`), rejecting overlong forms and
code points beyond `0x10FFFF`. -/
def decodeFour (b1 : Nat) : List Nat → Option (Nat × List Nat)
  | b2 :: b3 :: b4 :: rest4 =>
    let cp := (b1 - 0xF0) * 262144 + (b2 - 0x80) * 4096 + (b3 - 0x80) * 64 + (b4 - 0x80)
    if contByte b2 && contByte b3 && contByte b4 &&
        decide (0x10000 ≤ cp) && decide (cp ≤ 0x10FFFF) then
      some (cp, rest4)
    else none
  | _ => none

/-- Decode one code point off the front of a byte list, strictly:
overlong forms, surrogates and out-of-range leads are rejected, as in
Rust's `String::from_utf8`. -/
def utf8DecodeOne : List Nat → Option (Nat × List Nat)
  | [] => none
  | b1 :: rest =>
    if b1 < 0x80 then some (b1, rest)
    else if b1 < 0xC2 then none
    else if b1 ≤ 0xDF then decodeTwo b1 rest
    else if b1 ≤ 0xEF then decodeThree b1 rest
    else if b1 ≤ 0xF4 then decodeFour b1 rest
    else none

/-- Fuelled driver for `utf8Decode`; the fuel only bounds the number of
decoded code points, and `utf8Decode` supplies enough for any input. -/
def utf8DecodeAux : Nat → List Nat → Option (List Nat)
  | _, [] => some []
  | 0, _ :: _ => none
  | Nat.succ fuel, b1 :: rest =>
    match utf8DecodeOne (b1 :: rest) with
    | none => none
    | some (cp, r) => (utf8DecodeAux fuel r).map (fun t => cp :: t)

/-- Strict UTF-8 decoding of a byte list into unicode scalar values,
rejecting overlong forms, surrogates and out-of-range code points, as
Rust's `String::from_utf8` does.  Returns `none` on invalid input. -/
def utf8Decode (l : List Nat) : Option (List Nat) := utf8DecodeAux l.length l

/-- Rust `String::from_utf8` on a byte list. -/
def string_from_utf8 (l : List Nat) : Option String :=
  (utf8Decode l).map (fun cps => String.mk (cps.map Char.ofNat))

/-! ## `http_types` bodies (`http_types::Body`, as observable by the bridge)

An `http_types::Body` is a byte reader together with a media type and an
optional known length.  `Body::empty` and `Body::from_bytes` use the
byte-stream media type, `Body::from_string` uses `text/plain`; all three
record the byte length. -/

/-- The two media types the bridge's body constructors produce. -/
inductive Mime where
  | plain
  | byteStream
deriving DecidableEq

/-- Observable state of an `http_types::Body`. -/
structure Body where
  bytes : List Nat
  mime : Mime
  length : Option Nat
deriving DecidableEq

/-- `Body::empty()`. -/
def Body.empty : Body := { bytes := [], mime := Mime.byteStream, length := some 0 }

/-- `Body::from_string(text)`. -/
def Body.from_string (s : String) : Body :=
  { bytes := utf8Bytes s, mime := Mime.plain, length := some (utf8Bytes s).length }

/-- `Body::from_bytes(bytes)`. -/
def Body.from_bytes (b : List Nat) : Body :=
  { bytes := b, mime := Mime.byteStream, length := some b.length }

/-- `Body::is_empty(&self) -> Option<bool>`: `Some(len == 0)` when the
length is known, `None` otherwise. -/
def Body.is_empty (b : Body) : Option Bool :=
  b.length.map (fun l => decide (l = 0))

/-- `Body::into_string(self)`: reads the bytes and validates them as
UTF-8; fails (the `?` at line 141 of `src/lib.rs`) on invalid UTF-8. -/
def Body.into_string (b : Body) : Except String String :=
  match string_from_utf8 b.bytes with
  | some s => Except.ok s
  | none => Except.error "invalid utf-8"

/-! ## `lambda_http` / `lambda_runtime` values -/

/-- `lambda_http::Body`: the body of a decoded Lambda event. -/
inductive LambdaBody where
  | empty
  | text (s : String)
  | binary (bytes : List Nat)
deriving DecidableEq

/-- `lambda_http::request::RequestOrigin`: which event-envelope dialect
produced the request; the response envelope shape is keyed on it. -/
inductive RequestOrigin where
  | apiGatewayV1
  | apiGatewayV2
  | alb
  | webSocket
deriving DecidableEq

/-- The request content common to every event dialect: what
`http::Request::from(event)` exposes via `into_parts()`. -/
structure EventData where
  method : String
  path : String
  headers : List (String × String)
  body : LambdaBody
deriving DecidableEq

/-- `lambda_http::request::LambdaRequest`: the deserialized poll body,
one variant per supported event dialect. -/
inductive LambdaRequest where
  | apiGatewayV1 (d : EventData)
  | apiGatewayV2 (d : EventData)
  | alb (d : EventData)
  | webSocket (d : EventData)
deriving DecidableEq

/-- `LambdaRequest::request_origin()`: the dialect tag of the event. -/
def LambdaRequest.request_origin : LambdaRequest → RequestOrigin
  | LambdaRequest.apiGatewayV1 _ => RequestOrigin.apiGatewayV1
  | LambdaRequest.apiGatewayV2 _ => RequestOrigin.apiGatewayV2
  | LambdaRequest.alb _ => RequestOrigin.alb
  | LambdaRequest.webSocket _ => RequestOrigin.webSocket

/-- The parts-and-body view of the event after `event.into()` /
`into_parts()`. -/
def LambdaRequest.data : LambdaRequest → EventData
  | LambdaRequest.apiGatewayV1 d => d
  | LambdaRequest.apiGatewayV2 d => d
  | LambdaRequest.alb d => d
  | LambdaRequest.webSocket d => d

/-- `lambda_runtime::Config`: environment-derived function metadata. -/
structure Config where
  endpoint : String
  function_name : String
deriving DecidableEq

/-- `lambda_http::Context`: invocation metadata pulled from the headers of
the poll response. -/
structure Context where
  request_id : String
  deadline : String
  invoked_function_arn : Option String
  client_context : Option String
  identity : Option String
  env_config : Option Config
deriving DecidableEq

/-- First value under a header name in a header list. -/
def headerGet (hs : List (String × String)) (name : String) : Option String :=
  (hs.find? (fun p => p.1 == name)).map (fun p => p.2)

/-- `Context::try_from(HeaderMap)`: requires the request-id and deadline
headers; the remaining context headers are optional and copied verbatim. -/
def Context.try_from (hs : List (String × String)) : Except String Context :=
  match headerGet hs "lambda-runtime-aws-request-id",
        headerGet hs "lambda-runtime-deadline-ms" with
  | some rid, some dl =>
    Except.ok
      { request_id := rid
        deadline := dl
        invoked_function_arn := headerGet hs "lambda-runtime-invoked-function-arn"
        client_context := headerGet hs "lambda-runtime-client-context"
        identity := headerGet hs "lambda-runtime-cognito-identity"
        env_config := none }
  | _, _ => Except.error "missing required invocation context headers"

/-- `Context::with_config(config)`: records the environment config on the
context; all header-derived fields are unchanged. -/
def Context.with_config (ctx : Context) (config : Config) : Context :=
  { ctx with env_config := some config }

/-- `lambda_runtime::Diagnostic`: the error payload POSTed to the runtime
error route. -/
structure Diagnostic where
  error_type : String
  error_message : String
deriving DecidableEq

/-- `http_types::Error`, the error type of `Server::respond`: an HTTP
status plus an inner error whose `Display` output is `message`. -/
structure Error where
  status : Nat
  message : String
deriving DecidableEq

/-- `fn type_name_of<T: ?Sized>(_val: &T) -> &'static str` (line 266):
`std::any::type_name::<T>()`.  At its only call site the argument is the
`http_types::Error` returned by `respond`, so `T` is that concrete static
type and the result is its compile-time name, independent of the value. -/
def type_name_of (_val : Error) : String := "http_types::error::Error"

/-- `LambdaResponse::from_response(&request_origin, response)`: the
response envelope, whose JSON shape is selected by the origin tag passed
in (the envelope is an enum keyed on the dialect). -/
structure LambdaResponse where
  origin : RequestOrigin
  status : Nat
  headers : List (String × String)
  body : LambdaBody
deriving DecidableEq

/-- Constructor mirroring `LambdaResponse::from_response`. -/
def LambdaResponse.from_response (origin : RequestOrigin) (status : Nat)
    (headers : List (String × String)) (body : LambdaBody) : LambdaResponse :=
  { origin := origin, status := status, headers := headers, body := body }

/-! ## Header translation (lines 102-112 of `src/lib.rs`)

`http_types` headers iterate as `(name, values)` with possibly several
values per name; the bridge appends every value to a hyperium
`http::HeaderMap` (a multimap) with `append`, preserving multiplicity. -/

/-- The nested `for` loops of lines 102-112: fold over the incoming
header entries, appending each value under its name. -/
def translate_headers (hs : List (String × List String)) : List (String × String) :=
  hs.foldl (fun acc nv => nv.2.foldl (fun acc2 v => acc2 ++ [(nv.1, v)]) acc) []

/-! ## Canonical requests and responses -/

/-- The `http_types::Request` handed to `Server::respond`, with the
invocation context attached as out-of-band extension data
(`req.ext_mut().insert(ctx)`). -/
structure Request where
  method : String
  path : String
  headers : List (String × String)
  body : Body
  ext : Option Context
deriving DecidableEq

/-- The `http_types::Response` produced by `Server::respond`. -/
structure Response where
  status : Nat
  headers : List (String × String)
  body : Body
deriving DecidableEq

/-- Lines 124-128: translate the decoded event body into an
`http_types::Body`, one constructor per variant. -/
def decode_body (b : LambdaBody) : Body :=
  match b with
  | LambdaBody.empty => Body.empty
  | LambdaBody.text text => Body.from_string text
  | LambdaBody.binary bytes => Body.from_bytes bytes

/-- Lines 139-142: translate the application response body back into a
`lambda_http::Body`.  A body known to be empty becomes `Empty`; otherwise
the bytes are read as text, failing on invalid UTF-8. -/
def encode_body (b : Body) : Except String LambdaBody :=
  match b.is_empty with
  | some true => Except.ok LambdaBody.empty
  | _ => (b.into_string).map LambdaBody.text

/-- The canonical request built from a decoded event (lines 122-132):
parts and body from the event conversion, context attached as extension. -/
def built_request (ctx : Context) (event : LambdaRequest) : Request :=
  { method := event.data.method
    path := event.data.path
    headers := event.data.headers
    body := decode_body event.data.body
    ext := some ctx }

/-! ## The run loop

Transport and serde outcomes belong to the environment: one `IterEnv`
fixes what the runtime API does during one loop iteration.  The bridge's
observable actions are recorded as `Effect`s, in order. -/

deriving instance DecidableEq for Except

/-- Outcome of the `GET 2018-06-01/runtime/invocation/next` (line 100):
its headers and the result of deserializing its JSON body (line 119). -/
structure PollResponse where
  headers : List (String × List String)
  body_json : Except String LambdaRequest
deriving DecidableEq

/-- Environment oracle for one loop iteration: the poll outcome and the
transport outcome of whichever POST the iteration performs. -/
structure IterEnv where
  poll : Except String PollResponse
  post_result : Except String Unit
deriving DecidableEq

/-- Observable actions of one iteration, in program order. -/
inductive Effect where
  | pollNext
  | postResponse (route : String) (res : LambdaResponse)
  | postError (route : String) (header_name header_value : String) (diag : Diagnostic)
deriving DecidableEq

/-- Whether an effect is one of the two POSTs. -/
def Effect.isPost : Effect → Bool
  | Effect.pollNext => false
  | Effect.postResponse _ _ => true
  | Effect.postError _ _ _ _ => true

/-- Route of the success POST (lines 151-154). -/
def response_route (request_id : String) : String :=
  "2018-06-01/runtime/invocation/" ++ request_id ++ "/response"

/-- Route of the error POST (lines 167-170). -/
def error_route (request_id : String) : String :=
  "2018-06-01/runtime/invocation/" ++ request_id ++ "/error"

/-- The diagnostic built on handler failure (lines 161-164):
`error_type` is `type_name_of(&err)`, `error_message` is the error's
`Display` output. -/
def diagnostic_res (err : Error) : Diagnostic :=
  { error_type := type_name_of err, error_message := err.message }

/-- `handle_poll_lambda` (lines 95-178): one loop iteration.  Returns the
trace of effects performed and the function's `http_types::Result<()>`.
Serialization of the response / diagnostic to JSON (`Body::from_json`)
is value-preserving and infallible for these types, so the effects carry
the values themselves. -/
def handle_poll_lambda (respond : Request → Except Error Response)
    (config : Config) (env : IterEnv) : List Effect × Except String Unit :=
  match env.poll with
  | Except.error e => ([Effect.pollNext], Except.error e)
  | Except.ok incoming =>
    let hyperium_headers := translate_headers incoming.headers
    match Context.try_from hyperium_headers with
    | Except.error e => ([Effect.pollNext], Except.error e)
    | Except.ok ctx0 =>
      let ctx := ctx0.with_config config
      let request_id := ctx.request_id
      match incoming.body_json with
      | Except.error e => ([Effect.pollNext], Except.error e)
      | Except.ok event =>
        let request_origin := event.request_origin
        match respond (built_request ctx event) with
        | Except.ok res =>
          match encode_body res.body with
          | Except.error e => ([Effect.pollNext], Except.error e)
          | Except.ok lbody =>
            let lambda_res :=
              LambdaResponse.from_response request_origin res.status res.headers lbody
            ([Effect.pollNext, Effect.postResponse (response_route request_id) lambda_res],
             env.post_result)
        | Except.error err =>
          ([Effect.pollNext,
            Effect.postError (error_route request_id)
              "lambda-runtime-function-error-type" "unhandled" (diagnostic_res err)],
           env.post_result)

/-- Fate of the run loop over a finite schedule of iterations. -/
inductive LoopResult where
  | running
  | panicked (msg : String)
deriving DecidableEq

/-- The `loop` of lines 198-202: run iterations in order; an `Err` from
`handle_poll_lambda` hits `.expect("Runtime failure")` and panics,
abandoning the rest of the schedule.  `running` means the schedule was
exhausted with the loop still alive. -/
def run_loop (respond : Request → Except Error Response) (config : Config) :
    List IterEnv → List Effect × LoopResult
  | [] => ([], LoopResult.running)
  | env :: rest =>
    match handle_poll_lambda respond config env with
    | (tr, Except.error e) => (tr, LoopResult.panicked e)
    | (tr, Except.ok _) =>
      let next := run_loop respond config rest
      (tr ++ next.1, next.2)

/-! ## The listener state machine (lines 40-45, 185-210) -/

/-- Observable state of a `LambdaListener`: the config and the
`Option<Server>` slot (`client` is the transport, modelled by `IterEnv`).
The server handle is its `respond` function. -/
structure LambdaListener where
  config : Config
  server : Option (Request → Except Error Response)
  info : Option Unit

/-- Result of an operation that may abort the process (Rust `assert!` /
`expect`) instead of returning. -/
inductive StepResult (α : Type) where
  | panic (msg : String)
  | ok (a : α)

/-- `LambdaListener::new()` (lines 63-83): fresh listener, no server
bound, no listen info. -/
def LambdaListener.new (config : Config) : LambdaListener :=
  { config := config, server := none, info := none }

/-- `Listener::bind` (lines 185-190): `assert!(self.server.is_none())`,
then store the server. -/
def LambdaListener.bind (l : LambdaListener)
    (server : Request → Except Error Response) : StepResult LambdaListener :=
  if l.server.isSome then StepResult.panic "bind should only be called once"
  else StepResult.ok { l with server := some server }

/-- `Listener::accept` (lines 192-203): take the bound server
(`expect` panics when `bind` has not happened), then run the loop. -/
def LambdaListener.accept (l : LambdaListener) (envs : List IterEnv) :
    StepResult (List Effect × LoopResult) :=
  match l.server with
  | none => StepResult.panic "Listener bind must be called before Listener accept"
  | some server => StepResult.ok (run_loop server l.config envs)

/-! ## Concrete inputs used by the witness theorems -/

/-- Example configuration. -/
def wConfig : Config := { endpoint := "127.0.0.1:9001", function_name := "test-fn" }

/-- Example poll-response headers carrying the invocation context. -/
def wHeaders : List (String × List String) :=
  [("lambda-runtime-aws-request-id", ["abc123"]), ("lambda-runtime-deadline-ms", ["1000"])]

/-- Example decoded event: a `GET /hello` with no body, API Gateway v2 dialect. -/
def wEvent : LambdaRequest :=
  LambdaRequest.apiGatewayV2
    { method := "GET", path := "/hello", headers := [], body := LambdaBody.empty }

/-- Example iteration environment: poll and POST both succeed. -/
def wEnvOk : IterEnv :=
  { poll := Except.ok { headers := wHeaders, body_json := Except.ok wEvent }
    post_result := Except.ok () }

/-- Example iteration environment whose poll fails at the transport level. -/
def wEnvPollFail : IterEnv :=
  { poll := Except.error "connection refused", post_result := Except.ok () }

/-- Example iteration environment whose POST fails at the transport level. -/
def wEnvPostFail : IterEnv :=
  { poll := Except.ok { headers := wHeaders, body_json := Except.ok wEvent }
    post_result := Except.error "broken pipe" }

/-- Example application: always responds `200` with an empty body. -/
def wRespondOk : Request → Except Error Response :=
  fun _ => Except.ok { status := 200, headers := [], body := Body.empty }

/-- Example application: always fails with a `404 no route` error. -/
def wRespondErr : Request → Except Error Response :=
  fun _ => Except.error { status := 404, message := "no route" }

/-- Well-formed sequential traces: iterations of poll-then-at-most-one-POST,
with a POST separating any two consecutive polls. -/
inductive SeqOk : List Effect → Prop where
  | nil : SeqOk []
  | poll_only : SeqOk [Effect.pollNext]
  | poll_post (p : Effect) (rest : List Effect) (hp : p.isPost = true) (hr : SeqOk rest) :
      SeqOk (Effect.pollNext :: p :: rest)

/-- The invocation context decoded from `wHeaders`. -/
def wCtx : Context :=
  { request_id := "abc123", deadline := "1000", invoked_function_arn := none,
    client_context := none, identity := none, env_config := none }

/-- A textual body whose length is not known in advance. -/
def wBodyHi : Body := { bytes := utf8Bytes "hi", mime := Mime.plain, length := none }

/-! ## Helper lemmas: the UTF-8 codec round-trips every string -/

theorem decodeTwo_shrink (b1 : Nat) (l : List Nat) (cp : Nat) (r : List Nat)
    (h : decodeTwo b1 l = some (cp, r)) : r.length + 1 ≤ l.length := by
  cases l with
  | nil => simp [decodeTwo] at h
  | cons b2 rest2 =>
    simp only [decodeTwo] at h
    split_ifs at h
    simp only [Option.some.injEq, Prod.mk.injEq] at h
    obtain ⟨-, h2⟩ := h
    subst h2
    simp

theorem decodeThree_shrink (b1 : Nat) (l : List Nat) (cp : Nat) (r : List Nat)
    (h : decodeThree b1 l = some (cp, r)) : r.length + 1 ≤ l.length := by
  match l with
  | [] => simp [decodeThree] at h
  | [b2] => simp [decodeThree] at h
  | b2 :: b3 :: rest3 =>
    simp only [decodeThree] at h
    split_ifs at h
    simp only [Option.some.injEq, Prod.mk.injEq] at h
    obtain ⟨-, h2⟩ := h
    subst h2
    simp only [List.length_cons]
    omega

theorem decodeFour_shrink (b1 : Nat) (l : List Nat) (cp : Nat) (r : List Nat)
    (h : decodeFour b1 l = some (cp, r)) : r.length + 1 ≤ l.length := by
  match l with
  | [] => simp [decodeFour] at h
  | [b2] => simp [decodeFour] at h
  | [b2, b3] => simp [decodeFour] at h
  | b2 :: b3 :: b4 :: rest4 =>
    simp only [decodeFour] at h
    split_ifs at h
    simp only [Option.some.injEq, Prod.mk.injEq] at h
    obtain ⟨-, h2⟩ := h
    subst h2
    simp only [List.length_cons]
    omega

theorem utf8DecodeOne_shrink (l : List Nat) (cp : Nat) (r : List Nat)
    (h : utf8DecodeOne l = some (cp, r)) : r.length < l.length := by
  cases l with
  | cons b1 rest =>
    simp only [utf8DecodeOne] at h
    split_ifs at h
    · simp only [Option.some.injEq, Prod.mk.injEq] at h
      obtain ⟨-, h2⟩ := h
      subst h2
      simp
    · have := decodeTwo_shrink b1 rest cp r h
      simp only [List.length_cons]
      omega
    · have := decodeThree_shrink b1 rest cp r h
      simp only [List.length_cons]
      omega
    · have := decodeFour_shrink b1 rest cp r h
      simp only [List.length_cons]
      omega
  | nil => simp [utf8DecodeOne] at h

theorem utf8DecodeAux_fuel (f1 : Nat) : ∀ (f2 : Nat) (l : List Nat),
    l.length ≤ f1 → l.length ≤ f2 → utf8DecodeAux f1 l = utf8DecodeAux f2 l := by
  induction f1 with
  | zero =>
    intro f2 l h1 _
    cases l with
    | nil => cases f2 <;> rfl
    | cons b rest => simp at h1
  | succ f ih =>
    intro f2 l h1 h2
    cases l with
    | nil => cases f2 <;> rfl
    | cons b rest =>
      cases f2 with
      | zero => simp at h2
      | succ f2p =>
        simp only [utf8DecodeAux]
        cases hone : utf8DecodeOne (b :: rest) with
        | none => rfl
        | some pr =>
          obtain ⟨cp, r⟩ := pr
          have hr := utf8DecodeOne_shrink _ _ _ hone
          simp only [List.length_cons] at h1 h2 hr
          show (utf8DecodeAux f r).map (fun t => cp :: t) =
            (utf8DecodeAux f2p r).map (fun t => cp :: t)
          rw [ih f2p r (by omega) (by omega)]

theorem utf8Decode_step (l : List Nat) (cp : Nat) (r : List Nat)
    (h : utf8DecodeOne l = some (cp, r)) :
    utf8Decode l = (utf8Decode r).map (fun t => cp :: t) := by
  cases l with
  | nil => simp [utf8DecodeOne] at h
  | cons b rest =>
    have hr := utf8DecodeOne_shrink _ _ _ h
    simp only [List.length_cons] at hr
    unfold utf8Decode
    simp only [List.length_cons, utf8DecodeAux, h]
    show (utf8DecodeAux rest.length r).map (fun t => cp :: t) =
      (utf8DecodeAux r.length r).map (fun t => cp :: t)
    rw [utf8DecodeAux_fuel rest.length r.length r (by omega) (le_refl _)]

theorem utf8DecodeOne_char (c : Nat) (hv : c < 0xD800 ∨ (0xDFFF < c ∧ c < 0x110000))
    (rest : List Nat) : utf8DecodeOne (utf8Char c ++ rest) = some (c, rest) := by
  unfold utf8Char
  by_cases h1 : c < 0x80
  · simp only [if_pos h1, List.cons_append, List.nil_append, utf8DecodeOne, if_pos h1]
  · by_cases h2 : c < 0x800
    · have hb1a : ¬ (0xC0 + c / 0x40 < 0x80) := by omega
      have hb1b : ¬ (0xC0 + c / 0x40 < 0xC2) := by omega
      have hb1c : 0xC0 + c / 0x40 ≤ 0xDF := by omega
      have hcont : contByte (0x80 + c % 0x40) = true := by
        simp only [contByte, Bool.and_eq_true, decide_eq_true_eq]
        omega
      simp only [if_neg h1, if_pos h2, List.cons_append, List.nil_append, utf8DecodeOne,
        if_neg hb1a, if_neg hb1b, if_pos hb1c, decodeTwo, hcont, if_pos]
      have hval : (0xC0 + c / 0x40 - 0xC0) * 64 + (0x80 + c % 0x40 - 0x80) = c := by omega
      rw [hval]
    · by_cases h3 : c < 0x10000
      · have hb1a : ¬ (0xE0 + c / 0x1000 < 0x80) := by omega
        have hb1b : ¬ (0xE0 + c / 0x1000 < 0xC2) := by omega
        have hb1c : ¬ (0xE0 + c / 0x1000 ≤ 0xDF) := by omega
        have hb1d : 0xE0 + c / 0x1000 ≤ 0xEF := by omega
        simp only [if_neg h1, if_neg h2, if_pos h3, List.cons_append, List.nil_append,
          utf8DecodeOne, if_neg hb1a, if_neg hb1b, if_neg hb1c, if_pos hb1d, decodeThree]
        have hcond : (contByte (0x80 + c / 0x40 % 0x40) && contByte (0x80 + c % 0x40) &&
            decide (0x800 ≤ (0xE0 + c / 0x1000 - 0xE0) * 4096 +
              (0x80 + c / 0x40 % 0x40 - 0x80) * 64 + (0x80 + c % 0x40 - 0x80)) &&
            !(decide (0xD800 ≤ (0xE0 + c / 0x1000 - 0xE0) * 4096 +
              (0x80 + c / 0x40 % 0x40 - 0x80) * 64 + (0x80 + c % 0x40 - 0x80)) &&
              decide ((0xE0 + c / 0x1000 - 0xE0) * 4096 +
              (0x80 + c / 0x40 % 0x40 - 0x80) * 64 + (0x80 + c % 0x40 - 0x80) ≤ 0xDFFF))) = true := by
          simp only [contByte, Bool.and_eq_true, Bool.not_eq_true', Bool.and_eq_false_iff,
            decide_eq_true_eq, decide_eq_false_iff_not]
          omega
        rw [if_pos hcond]
        have hval : (0xE0 + c / 0x1000 - 0xE0) * 4096 + (0x80 + c / 0x40 % 0x40 - 0x80) * 64 +
            (0x80 + c % 0x40 - 0x80) = c := by omega
        rw [hval]
      · have h4 : c < 0x110000 := by omega
        have hb1a : ¬ (0xF0 + c / 0x40000 < 0x80) := by omega
        have hb1b : ¬ (0xF0 + c / 0x40000 < 0xC2) := by omega
        have hb1c : ¬ (0xF0 + c / 0x40000 ≤ 0xDF) := by omega
        have hb1d : ¬ (0xF0 + c / 0x40000 ≤ 0xEF) := by omega
        have hb1e : 0xF0 + c / 0x40000 ≤ 0xF4 := by omega
        simp only [if_neg h1, if_neg h2, if_neg h3, List.cons_append, List.nil_append,
          utf8DecodeOne, if_neg hb1a, if_neg hb1b, if_neg hb1c, if_neg hb1d, if_pos hb1e,
          decodeFour]
        have hcond : (contByte (0x80 + c / 0x1000 % 0x40) && contByte (0x80 + c / 0x40 % 0x40) &&
            contByte (0x80 + c % 0x40) &&
            decide (0x10000 ≤ (0xF0 + c / 0x40000 - 0xF0) * 262144 +
              (0x80 + c / 0x1000 % 0x40 - 0x80) * 4096 +
              (0x80 + c / 0x40 % 0x40 - 0x80) * 64 + (0x80 + c % 0x40 - 0x80)) &&
            decide ((0xF0 + c / 0x40000 - 0xF0) * 262144 +
              (0x80 + c / 0x1000 % 0x40 - 0x80) * 4096 +
              (0x80 + c / 0x40 % 0x40 - 0x80) * 64 + (0x80 + c % 0x40 - 0x80) ≤ 0x10FFFF)) = true := by
          simp only [contByte, Bool.and_eq_true, decide_eq_true_eq]
          omega
        rw [if_pos hcond]
        have hval : (0xF0 + c / 0x40000 - 0xF0) * 262144 + (0x80 + c / 0x1000 % 0x40 - 0x80) * 4096 +
            (0x80 + c / 0x40 % 0x40 - 0x80) * 64 + (0x80 + c % 0x40 - 0x80) = c := by omega
        rw [hval]

theorem char_valid_nat (c : Char) : c.toNat < 0xD800 ∨ (0xDFFF < c.toNat ∧ c.toNat < 0x110000) := by
  have h := c.valid
  unfold UInt32.isValidChar Nat.isValidChar at h
  simp only [UInt32.lt_def, UInt32.toNat] at h ⊢
  exact h

theorem utf8Decode_flatten (l : List Char) :
    utf8Decode ((l.map (fun ch => utf8Char ch.toNat)).flatten) = some (l.map Char.toNat) := by
  induction l with
  | nil => rfl
  | cons c t ih =>
    simp only [List.map_cons, List.flatten_cons]
    have h1 := utf8DecodeOne_char c.toNat (char_valid_nat c)
      ((t.map (fun ch => utf8Char ch.toNat)).flatten)
    rw [utf8Decode_step _ _ _ h1, ih]
    rfl

theorem string_from_utf8_utf8Bytes (s : String) : string_from_utf8 (utf8Bytes s) = some s := by
  unfold string_from_utf8 utf8Bytes
  rw [utf8Decode_flatten s.data]
  simp only [Option.map_some']
  rw [List.map_map]
  have hmap : s.data.map (Char.ofNat ∘ Char.toNat) = s.data.map id := by
    apply List.map_congr_left
    intro c _
    exact Char.ofNat_toNat c
  rw [hmap, List.map_id]

theorem foldl_append_values (n : String) (vs : List String) (acc : List (String × String)) :
    vs.foldl (fun acc2 v => acc2 ++ [(n, v)]) acc = acc ++ vs.map (fun v => (n, v)) := by
  induction vs generalizing acc with
  | nil => simp
  | cons v t ih => simp [ih]

theorem translate_headers_eq (hs : List (String × List String)) :
    translate_headers hs = (hs.map (fun p => p.2.map (fun v => (p.1, v)))).flatten := by
  suffices h : ∀ acc, hs.foldl (fun acc nv => nv.2.foldl (fun acc2 v => acc2 ++ [(nv.1, v)]) acc) acc =
      acc ++ (hs.map (fun p => p.2.map (fun v => (p.1, v)))).flatten by
    simpa [translate_headers] using h []
  induction hs with
  | nil => simp
  | cons p t ih =>
    intro acc
    simp only [List.foldl_cons, List.map_cons, List.flatten_cons]
    rw [foldl_append_values, ih]
    simp

theorem count_map_pair (name v : String) (p1 : String) (vs : List String) :
    ((vs.map (fun w => (p1, w))).count (name, v)) = if p1 = name then vs.count v else 0 := by
  induction vs with
  | nil => simp
  | cons w t ih =>
    simp only [List.map_cons, List.count_cons, ih]
    by_cases hp : p1 = name
    · subst hp
      by_cases hw : w = v
      · subst hw
        simp
      · simp [hw, Prod.ext_iff]
    · simp [hp, Prod.ext_iff]

theorem translate_headers_count (hs : List (String × List String)) (name v : String) :
    (translate_headers hs).count (name, v) =
      (hs.map (fun p => if p.1 = name then p.2.count v else 0)).sum := by
  rw [translate_headers_eq]
  induction hs with
  | nil => simp
  | cons p t ih =>
    simp only [List.map_cons, List.flatten_cons, List.count_append, List.sum_cons, ih,
      count_map_pair]

/-- Branch equation: transport failure of the poll. -/
theorem handle_eq_poll_err (respond : Request → Except Error Response) (config : Config)
    (env : IterEnv) (e : String) (h : env.poll = Except.error e) :
    handle_poll_lambda respond config env = ([Effect.pollNext], Except.error e) := by
  simp [handle_poll_lambda, h]

/-- Branch equation: missing context headers. -/
theorem handle_eq_ctx_err (respond : Request → Except Error Response) (config : Config)
    (env : IterEnv) (inc : PollResponse) (e : String)
    (h1 : env.poll = Except.ok inc)
    (h2 : Context.try_from (translate_headers inc.headers) = Except.error e) :
    handle_poll_lambda respond config env = ([Effect.pollNext], Except.error e) := by
  simp [handle_poll_lambda, h1, h2]

/-- Branch equation: malformed event JSON. -/
theorem handle_eq_json_err (respond : Request → Except Error Response) (config : Config)
    (env : IterEnv) (inc : PollResponse) (ctx0 : Context) (e : String)
    (h1 : env.poll = Except.ok inc)
    (h2 : Context.try_from (translate_headers inc.headers) = Except.ok ctx0)
    (h3 : inc.body_json = Except.error e) :
    handle_poll_lambda respond config env = ([Effect.pollNext], Except.error e) := by
  simp [handle_poll_lambda, h1, h2, h3]

/-- Branch equation: handler succeeded but its body is not readable as text. -/
theorem handle_eq_enc_err (respond : Request → Except Error Response) (config : Config)
    (env : IterEnv) (inc : PollResponse) (ctx0 : Context) (event : LambdaRequest)
    (res : Response) (e : String)
    (h1 : env.poll = Except.ok inc)
    (h2 : Context.try_from (translate_headers inc.headers) = Except.ok ctx0)
    (h3 : inc.body_json = Except.ok event)
    (h4 : respond (built_request (ctx0.with_config config) event) = Except.ok res)
    (h5 : encode_body res.body = Except.error e) :
    handle_poll_lambda respond config env = ([Effect.pollNext], Except.error e) := by
  simp [handle_poll_lambda, h1, h2, h3, h4, h5]

/-- Branch equation: the success path. -/
theorem handle_eq_ok (respond : Request → Except Error Response) (config : Config)
    (env : IterEnv) (inc : PollResponse) (ctx0 : Context) (event : LambdaRequest)
    (res : Response) (lbody : LambdaBody)
    (h1 : env.poll = Except.ok inc)
    (h2 : Context.try_from (translate_headers inc.headers) = Except.ok ctx0)
    (h3 : inc.body_json = Except.ok event)
    (h4 : respond (built_request (ctx0.with_config config) event) = Except.ok res)
    (h5 : encode_body res.body = Except.ok lbody) :
    handle_poll_lambda respond config env =
      ([Effect.pollNext,
        Effect.postResponse (response_route (ctx0.with_config config).request_id)
          (LambdaResponse.from_response event.request_origin res.status res.headers lbody)],
       env.post_result) := by
  simp [handle_poll_lambda, h1, h2, h3, h4, h5]

/-- Branch equation: the application-error path. -/
theorem handle_eq_app_err (respond : Request → Except Error Response) (config : Config)
    (env : IterEnv) (inc : PollResponse) (ctx0 : Context) (event : LambdaRequest) (err : Error)
    (h1 : env.poll = Except.ok inc)
    (h2 : Context.try_from (translate_headers inc.headers) = Except.ok ctx0)
    (h3 : inc.body_json = Except.ok event)
    (h4 : respond (built_request (ctx0.with_config config) event) = Except.error err) :
    handle_poll_lambda respond config env =
      ([Effect.pollNext,
        Effect.postError (error_route (ctx0.with_config config).request_id)
          "lambda-runtime-function-error-type" "unhandled" (diagnostic_res err)],
       env.post_result) := by
  simp [handle_poll_lambda, h1, h2, h3, h4]

/-- `with_config` does not touch the request id. -/
theorem with_config_request_id (ctx : Context) (c : Config) :
    (ctx.with_config c).request_id = ctx.request_id := rfl

/-- Every iteration trace is the poll alone or the poll followed by one POST. -/
theorem handle_trace_shape (respond : Request → Except Error Response) (config : Config)
    (env : IterEnv) :
    (handle_poll_lambda respond config env).1 = [Effect.pollNext] ∨
    ∃ p, p.isPost = true ∧ (handle_poll_lambda respond config env).1 = [Effect.pollNext, p] := by
  cases hpoll : env.poll with
  | error e => left; rw [handle_eq_poll_err respond config env e hpoll]
  | ok inc =>
    cases hctx : Context.try_from (translate_headers inc.headers) with
    | error e => left; rw [handle_eq_ctx_err respond config env inc e hpoll hctx]
    | ok ctx0 =>
      cases hjson : inc.body_json with
      | error e => left; rw [handle_eq_json_err respond config env inc ctx0 e hpoll hctx hjson]
      | ok event =>
        cases hres : respond (built_request (ctx0.with_config config) event) with
        | error err =>
          right
          rw [handle_eq_app_err respond config env inc ctx0 event err hpoll hctx hjson hres]
          refine ⟨_, ?_, rfl⟩
          rfl
        | ok res =>
          cases henc : encode_body res.body with
          | error e =>
            left
            rw [handle_eq_enc_err respond config env inc ctx0 event res e hpoll hctx hjson hres henc]
          | ok lbody =>
            right
            rw [handle_eq_ok respond config env inc ctx0 event res lbody hpoll hctx hjson hres henc]
            refine ⟨_, ?_, rfl⟩
            rfl

/-- An iteration that returns `Ok` completed its POST successfully, and its
trace is exactly the poll followed by that POST. -/
theorem handle_ok_post (respond : Request → Except Error Response) (config : Config)
    (env : IterEnv) (h : (handle_poll_lambda respond config env).2 = Except.ok ()) :
    env.post_result = Except.ok () ∧
    ∃ p, p.isPost = true ∧ (handle_poll_lambda respond config env).1 = [Effect.pollNext, p] := by
  cases hpoll : env.poll with
  | error e =>
    rw [handle_eq_poll_err respond config env e hpoll] at h
    exact absurd h (by simp)
  | ok inc =>
    cases hctx : Context.try_from (translate_headers inc.headers) with
    | error e =>
      rw [handle_eq_ctx_err respond config env inc e hpoll hctx] at h
      exact absurd h (by simp)
    | ok ctx0 =>
      cases hjson : inc.body_json with
      | error e =>
        rw [handle_eq_json_err respond config env inc ctx0 e hpoll hctx hjson] at h
        exact absurd h (by simp)
      | ok event =>
        cases hres : respond (built_request (ctx0.with_config config) event) with
        | error err =>
          rw [handle_eq_app_err respond config env inc ctx0 event err hpoll hctx hjson hres] at h ⊢
          refine ⟨h, _, ?_, rfl⟩
          rfl
        | ok res =>
          cases henc : encode_body res.body with
          | error e =>
            rw [handle_eq_enc_err respond config env inc ctx0 event res e hpoll hctx hjson hres henc] at h
            exact absurd h (by simp)
          | ok lbody =>
            rw [handle_eq_ok respond config env inc ctx0 event res lbody hpoll hctx hjson hres henc] at h ⊢
            refine ⟨h, _, ?_, rfl⟩
            rfl

/-- A response POST in an iteration trace pins down the whole decode of that
iteration: the envelope's origin is the decoded event's origin and the route
is keyed by the decoded context's request id. -/
theorem handle_postResponse_mem (respond : Request → Except Error Response) (config : Config)
    (env : IterEnv) (route : String) (res : LambdaResponse)
    (h : Effect.postResponse route res ∈ (handle_poll_lambda respond config env).1) :
    ∃ inc event ctx0,
      env.poll = Except.ok inc ∧
      inc.body_json = Except.ok event ∧
      Context.try_from (translate_headers inc.headers) = Except.ok ctx0 ∧
      res.origin = event.request_origin ∧
      route = response_route ctx0.request_id := by
  cases hpoll : env.poll with
  | error e =>
    rw [handle_eq_poll_err respond config env e hpoll] at h
    simp at h
  | ok inc =>
    cases hctx : Context.try_from (translate_headers inc.headers) with
    | error e =>
      rw [handle_eq_ctx_err respond config env inc e hpoll hctx] at h
      simp at h
    | ok ctx0 =>
      cases hjson : inc.body_json with
      | error e =>
        rw [handle_eq_json_err respond config env inc ctx0 e hpoll hctx hjson] at h
        simp at h
      | ok event =>
        cases hres : respond (built_request (ctx0.with_config config) event) with
        | error err =>
          rw [handle_eq_app_err respond config env inc ctx0 event err hpoll hctx hjson hres] at h
          simp at h
        | ok res2 =>
          cases henc : encode_body res2.body with
          | error e =>
            rw [handle_eq_enc_err respond config env inc ctx0 event res2 e hpoll hctx hjson hres henc] at h
            simp at h
          | ok lbody =>
            rw [handle_eq_ok respond config env inc ctx0 event res2 lbody hpoll hctx hjson hres henc] at h
            simp only [List.mem_cons, List.not_mem_nil, or_false] at h
            rcases h with h | h
            · exact Effect.noConfusion h
            · obtain ⟨hroute, hres2⟩ := Effect.postResponse.inj h
              subst hres2
              exact ⟨inc, event, ctx0, rfl, hjson, hctx, rfl, hroute⟩

/-- An error POST in an iteration trace comes from the application-error
branch: its diagnostic is `diagnostic_res` of the handler error, its route is
keyed by the decoded context's request id and its header is fixed. -/
theorem handle_postError_mem (respond : Request → Except Error Response) (config : Config)
    (env : IterEnv) (route hn hv : String) (diag : Diagnostic)
    (h : Effect.postError route hn hv diag ∈ (handle_poll_lambda respond config env).1) :
    ∃ inc event ctx0 err,
      env.poll = Except.ok inc ∧
      inc.body_json = Except.ok event ∧
      Context.try_from (translate_headers inc.headers) = Except.ok ctx0 ∧
      respond (built_request (ctx0.with_config config) event) = Except.error err ∧
      route = error_route ctx0.request_id ∧
      hn = "lambda-runtime-function-error-type" ∧ hv = "unhandled" ∧
      diag = diagnostic_res err := by
  cases hpoll : env.poll with
  | error e =>
    rw [handle_eq_poll_err respond config env e hpoll] at h
    simp at h
  | ok inc =>
    cases hctx : Context.try_from (translate_headers inc.headers) with
    | error e =>
      rw [handle_eq_ctx_err respond config env inc e hpoll hctx] at h
      simp at h
    | ok ctx0 =>
      cases hjson : inc.body_json with
      | error e =>
        rw [handle_eq_json_err respond config env inc ctx0 e hpoll hctx hjson] at h
        simp at h
      | ok event =>
        cases hres : respond (built_request (ctx0.with_config config) event) with
        | ok res2 =>
          cases henc : encode_body res2.body with
          | error e =>
            rw [handle_eq_enc_err respond config env inc ctx0 event res2 e hpoll hctx hjson hres henc] at h
            simp at h
          | ok lbody =>
            rw [handle_eq_ok respond config env inc ctx0 event res2 lbody hpoll hctx hjson hres henc] at h
            simp at h
        | error err =>
          rw [handle_eq_app_err respond config env inc ctx0 event err hpoll hctx hjson hres] at h
          simp only [List.mem_cons, List.not_mem_nil, or_false] at h
          rcases h with h | h
          · exact Effect.noConfusion h
          · obtain ⟨hroute, hhn, hhv, hdiag⟩ := Effect.postError.inj h
            subst hdiag
            exact ⟨inc, event, ctx0, err, rfl, hjson, hctx, hres, hroute, hhn, hhv, rfl⟩

/-- The loop dies on the spot when an iteration returns `Err`. -/
theorem run_loop_cons_err (respond : Request → Except Error Response) (config : Config)
    (env : IterEnv) (rest : List IterEnv) (e : String)
    (h : (handle_poll_lambda respond config env).2 = Except.error e) :
    run_loop respond config (env :: rest) =
      ((handle_poll_lambda respond config env).1, LoopResult.panicked e) := by
  cases hh : handle_poll_lambda respond config env with
  | mk tr out =>
    rw [hh] at h
    simp only at h
    subst h
    simp [run_loop, hh]

/-- The loop continues into the rest of the schedule when an iteration
returns `Ok`. -/
theorem run_loop_cons_ok (respond : Request → Except Error Response) (config : Config)
    (env : IterEnv) (rest : List IterEnv)
    (h : (handle_poll_lambda respond config env).2 = Except.ok ()) :
    run_loop respond config (env :: rest) =
      ((handle_poll_lambda respond config env).1 ++ (run_loop respond config rest).1,
       (run_loop respond config rest).2) := by
  cases hh : handle_poll_lambda respond config env with
  | mk tr out =>
    rw [hh] at h
    simp only at h
    subst h
    simp [run_loop, hh]

/-- Claim C9: in every execution of the run loop the steps are strictly
sequential: each iteration's trace is its poll followed by at most one POST,
a new poll is never issued before the previous invocation's POST appears in
the trace, and the loop only proceeds to the next iteration after the
previous POST completed successfully. -/
theorem at_most_one_in_flight (respond : Request → Except Error Response) (config : Config)
    (envs : List IterEnv) :
    SeqOk (run_loop respond config envs).1 ∧
    (∀ env : IterEnv, (handle_poll_lambda respond config env).2 = Except.ok () →
      env.post_result = Except.ok () ∧
      ∃ p, p.isPost = true ∧ (handle_poll_lambda respond config env).1 = [Effect.pollNext, p]) := by
  refine ⟨?_, fun env h => handle_ok_post respond config env h⟩
  induction envs with
  | nil => exact SeqOk.nil
  | cons env rest ih =>
    cases hout : (handle_poll_lambda respond config env).2 with
    | error e =>
      rw [run_loop_cons_err respond config env rest e hout]
      rcases handle_trace_shape respond config env with hs | ⟨p, hp, hs⟩
      · rw [hs]; exact SeqOk.poll_only
      · rw [hs]; exact SeqOk.poll_post p [] hp SeqOk.nil
    | ok u =>
      cases u
      rw [run_loop_cons_ok respond config env rest hout]
      obtain ⟨-, p, hp, hs⟩ := handle_ok_post respond config env hout
      rw [hs]
      exact SeqOk.poll_post p _ hp ih

/-- Claim C1: every response envelope POSTed by the run loop was encoded
with the `RequestOrigin` decoded from the same invocation's event, and was
addressed to the route keyed by that same invocation's request id — never a
default origin or another invocation's. -/
theorem origin_pinning (respond : Request → Except Error Response) (config : Config)
    (envs : List IterEnv) (route : String) (res : LambdaResponse)
    (h : Effect.postResponse route res ∈ (run_loop respond config envs).1) :
    ∃ env, env ∈ envs ∧ ∃ inc event ctx0,
      env.poll = Except.ok inc ∧
      inc.body_json = Except.ok event ∧
      Context.try_from (translate_headers inc.headers) = Except.ok ctx0 ∧
      res.origin = event.request_origin ∧
      route = response_route ctx0.request_id := by
  induction envs with
  | nil => simp [run_loop] at h
  | cons env rest ih =>
    cases hout : (handle_poll_lambda respond config env).2 with
    | error e =>
      rw [run_loop_cons_err respond config env rest e hout] at h
      exact ⟨env, List.mem_cons_self env rest, handle_postResponse_mem respond config env route res h⟩
    | ok u =>
      cases u
      rw [run_loop_cons_ok respond config env rest hout] at h
      rcases List.mem_append.mp h with h1 | h2
      · exact ⟨env, List.mem_cons_self env rest, handle_postResponse_mem respond config env route res h1⟩
      · obtain ⟨env2, hmem, hrest⟩ := ih h2
        exact ⟨env2, List.mem_cons_of_mem env hmem, hrest⟩

/-- Claim C2: when the application's `respond` fails and the error POST's
transport succeeds, the iteration POSTs `diagnostic_res` of the error to the
error route for this invocation's request id with the fixed unhandled-error
header, returns `Ok`, and the loop goes on to poll the next invocation. -/
theorem application_error_recovery (respond : Request → Except Error Response) (config : Config)
    (env : IterEnv) (rest : List IterEnv) (inc : PollResponse) (ctx0 : Context)
    (event : LambdaRequest) (err : Error)
    (h1 : env.poll = Except.ok inc)
    (h2 : Context.try_from (translate_headers inc.headers) = Except.ok ctx0)
    (h3 : inc.body_json = Except.ok event)
    (h4 : respond (built_request (ctx0.with_config config) event) = Except.error err)
    (h5 : env.post_result = Except.ok ()) :
    handle_poll_lambda respond config env =
      ([Effect.pollNext,
        Effect.postError (error_route ctx0.request_id)
          "lambda-runtime-function-error-type" "unhandled" (diagnostic_res err)],
       Except.ok ()) ∧
    run_loop respond config (env :: rest) =
      ([Effect.pollNext,
        Effect.postError (error_route ctx0.request_id)
          "lambda-runtime-function-error-type" "unhandled" (diagnostic_res err)] ++
        (run_loop respond config rest).1,
       (run_loop respond config rest).2) := by
  have heq := handle_eq_app_err respond config env inc ctx0 event err h1 h2 h3 h4
  rw [h5] at heq
  refine ⟨heq, ?_⟩
  rw [run_loop_cons_ok respond config env rest (by rw [heq]), heq]
  rfl

/-- Claim C3: a transport failure of the poll makes the iteration return
`Err`; an iteration that issued a POST returns that POST's transport
outcome; and any `Err` from an iteration panics the loop immediately,
abandoning the remaining schedule. -/
theorem transport_error_fatal (respond : Request → Except Error Response) (config : Config)
    (env : IterEnv) (rest : List IterEnv) (e : String) :
    (env.poll = Except.error e → (handle_poll_lambda respond config env).2 = Except.error e) ∧
    ((∃ p, p.isPost = true ∧ p ∈ (handle_poll_lambda respond config env).1) →
      (handle_poll_lambda respond config env).2 = env.post_result) ∧
    ((handle_poll_lambda respond config env).2 = Except.error e →
      run_loop respond config (env :: rest) =
        ((handle_poll_lambda respond config env).1, LoopResult.panicked e)) := by
  refine ⟨?_, ?_, run_loop_cons_err respond config env rest e⟩
  · intro h
    rw [handle_eq_poll_err respond config env e h]
  · rintro ⟨p, hp, hmem⟩
    cases hpoll : env.poll with
    | error e2 =>
      rw [handle_eq_poll_err respond config env e2 hpoll] at hmem
      simp at hmem
      subst hmem
      exact absurd hp (by simp [Effect.isPost])
    | ok inc =>
      cases hctx : Context.try_from (translate_headers inc.headers) with
      | error e2 =>
        rw [handle_eq_ctx_err respond config env inc e2 hpoll hctx] at hmem
        simp at hmem
        subst hmem
        exact absurd hp (by simp [Effect.isPost])
      | ok ctx0 =>
        cases hjson : inc.body_json with
        | error e2 =>
          rw [handle_eq_json_err respond config env inc ctx0 e2 hpoll hctx hjson] at hmem
          simp at hmem
          subst hmem
          exact absurd hp (by simp [Effect.isPost])
        | ok event =>
          cases hres : respond (built_request (ctx0.with_config config) event) with
          | error err =>
            rw [handle_eq_app_err respond config env inc ctx0 event err hpoll hctx hjson hres]
          | ok res =>
            cases henc : encode_body res.body with
            | error e2 =>
              rw [handle_eq_enc_err respond config env inc ctx0 event res e2 hpoll hctx hjson hres henc] at hmem
              simp at hmem
              subst hmem
              exact absurd hp (by simp [Effect.isPost])
            | ok lbody =>
              rw [handle_eq_ok respond config env inc ctx0 event res lbody hpoll hctx hjson hres henc]

/-- Claim C4: decode maps an absent event body to the canonical empty body,
a textual body to a text-typed body whose bytes are the original string's
encoding (readable back as exactly that string), and a binary body to a
byte-stream body with the original bytes; text bodies are never conflated
with binary or empty ones. -/
theorem body_variant_fidelity (s : String) (bs : List Nat) :
    decode_body LambdaBody.empty = Body.empty ∧
    (decode_body (LambdaBody.text s)).bytes = utf8Bytes s ∧
    (decode_body (LambdaBody.text s)).mime = Mime.plain ∧
    (decode_body (LambdaBody.text s)).into_string = Except.ok s ∧
    (decode_body (LambdaBody.binary bs)).bytes = bs ∧
    (decode_body (LambdaBody.binary bs)).mime = Mime.byteStream ∧
    decode_body (LambdaBody.text s) ≠ decode_body (LambdaBody.binary bs) ∧
    decode_body (LambdaBody.text s) ≠ Body.empty := by
  refine ⟨rfl, rfl, rfl, ?_, rfl, rfl, ?_, ?_⟩
  · show Body.into_string (Body.from_string s) = Except.ok s
    unfold Body.into_string
    rw [show (Body.from_string s).bytes = utf8Bytes s from rfl, string_from_utf8_utf8Bytes s]
  · intro h
    have := congrArg Body.mime h
    simp [decode_body, Body.from_string, Body.from_bytes] at this
  · intro h
    have := congrArg Body.mime h
    simp [decode_body, Body.from_string, Body.empty] at this

/-- Claim C5: a response body known to be empty is encoded as the `Empty`
envelope variant (not a zero-length text), any other body is encoded as the
text of its contents, and the `Empty` variant is distinguishable from a
zero-length text variant. -/
theorem empty_vs_missing_body (b : Body) (s : String) :
    (b.is_empty = some true → encode_body b = Except.ok LambdaBody.empty) ∧
    (b.is_empty ≠ some true → encode_body b = (b.into_string).map LambdaBody.text) ∧
    LambdaBody.empty ≠ LambdaBody.text s := by
  refine ⟨?_, ?_, by intro h; exact LambdaBody.noConfusion h⟩
  · intro h
    unfold encode_body
    rw [h]
  · intro h
    unfold encode_body
    cases hie : b.is_empty with
    | none => rfl
    | some v =>
      cases v with
      | false => rfl
      | true => exact absurd hie h

/-- Claim C6: translating the poll response's header multimap is lossless
for repeated names: it is exactly the order-preserving flattening of all
name/value pairs, and each pair's multiplicity is the sum of its
multiplicities across the entries for its name. -/
theorem header_multimap_fidelity (hs : List (String × List String)) (name v : String) :
    translate_headers hs = (hs.map (fun p => p.2.map (fun w => (p.1, w)))).flatten ∧
    (translate_headers hs).count (name, v) =
      (hs.map (fun p => if p.1 = name then p.2.count v else 0)).sum :=
  ⟨translate_headers_eq hs, translate_headers_count hs name v⟩

/-- Counterexample to claim C7 as stated: an application error whose
`Display` output is empty yields a diagnostic with an empty
`error_message`, so the diagnostic is not always non-empty in both fields. -/
theorem diagnostic_nonempty_message_cex :
    ¬ (∀ err : Error, (diagnostic_res err).error_type ≠ "" ∧
        (diagnostic_res err).error_message ≠ "") := by
  intro h
  exact (h { status := 500, message := "" }).2 rfl

/-- Claim C7 (amended): building the diagnostic is total — it succeeds for
every application error value; its `error_type` is the static type name and
is never empty; its `error_message` equals the error's `Display` output
(and so is empty exactly when that output is empty). -/
theorem diagnostic_encoding_total (err : Error) :
    (diagnostic_res err).error_type = type_name_of err ∧
    (diagnostic_res err).error_type ≠ "" ∧
    (diagnostic_res err).error_message = err.message := by
  refine ⟨rfl, ?_, rfl⟩
  simp [diagnostic_res, type_name_of]

/-- Claim C8: calling `accept` before `bind` panics, a second `bind`
panics, and a single `bind` followed by `accept` does not fault — `accept`
takes the bound server and enters the run loop. -/
theorem bind_accept_state_machine (config : Config)
    (s s2 : Request → Except Error Response) (envs : List IterEnv) :
    (∃ msg, (LambdaListener.new config).accept envs = StepResult.panic msg) ∧
    (LambdaListener.new config).bind s =
      StepResult.ok { config := config, server := some s, info := none } ∧
    (∃ msg, LambdaListener.bind { config := config, server := some s, info := none } s2 =
      StepResult.panic msg) ∧
    LambdaListener.accept { config := config, server := some s, info := none } envs =
      StepResult.ok (run_loop s config envs) :=
  ⟨⟨_, rfl⟩, rfl, ⟨_, rfl⟩, rfl⟩

/-- Claim C10: the diagnostic's `error_type` is the compile-time type name
of the handler error's static type (`http_types::Error`), so it is the same
constant string for every error value; every error POST in a trace carries
a diagnostic whose `error_type` is that constant and whose `error_message`
is the error's `Display` output. -/
theorem error_type_is_static_type_name (e1 e2 : Error)
    (respond : Request → Except Error Response) (config : Config) (env : IterEnv)
    (route hn hv : String) (diag : Diagnostic) :
    type_name_of e1 = type_name_of e2 ∧
    type_name_of e1 = "http_types::error::Error" ∧
    (Effect.postError route hn hv diag ∈ (handle_poll_lambda respond config env).1 →
      diag.error_type = "http_types::error::Error" ∧
      ∃ err : Error, diag = diagnostic_res err ∧ diag.error_message = err.message) := by
  refine ⟨rfl, rfl, fun h => ?_⟩
  obtain ⟨inc, event, ctx0, err, -, -, -, -, -, -, -, hdiag⟩ :=
    handle_postError_mem respond config env route hn hv diag h
  subst hdiag
  exact ⟨rfl, err, rfl, rfl⟩

/-- Witness for C1: a concrete run of the loop in which the posted envelope
carries the origin decoded from the same invocation. -/
theorem origin_pinning_witness :
    ∃ env, env ∈ [wEnvOk] ∧ ∃ inc event ctx0,
      env.poll = Except.ok inc ∧
      inc.body_json = Except.ok event ∧
      Context.try_from (translate_headers inc.headers) = Except.ok ctx0 ∧
      (LambdaResponse.from_response RequestOrigin.apiGatewayV2 200 [] LambdaBody.empty).origin =
        event.request_origin ∧
      response_route "abc123" = response_route ctx0.request_id :=
  origin_pinning wRespondOk wConfig [wEnvOk] (response_route "abc123")
    (LambdaResponse.from_response RequestOrigin.apiGatewayV2 200 [] LambdaBody.empty) (by decide)

/-- Witness for C2: a concrete failing handler leads to the error POST with
the fixed header and the loop carries on. -/
theorem application_error_recovery_witness :
    handle_poll_lambda wRespondErr wConfig wEnvOk =
      ([Effect.pollNext,
        Effect.postError (error_route "abc123")
          "lambda-runtime-function-error-type" "unhandled"
          { error_type := "http_types::error::Error", error_message := "no route" }],
       Except.ok ()) ∧
    run_loop wRespondErr wConfig [wEnvOk] =
      ([Effect.pollNext,
        Effect.postError (error_route "abc123")
          "lambda-runtime-function-error-type" "unhandled"
          { error_type := "http_types::error::Error", error_message := "no route" }] ++
        (run_loop wRespondErr wConfig []).1,
       (run_loop wRespondErr wConfig []).2) :=
  application_error_recovery wRespondErr wConfig wEnvOk []
    { headers := wHeaders, body_json := Except.ok wEvent } wCtx wEvent
    { status := 404, message := "no route" } rfl (by decide) rfl rfl rfl

/-- Witness for C3: a poll transport failure is an `Err`, an iteration that
POSTed returns the POST's transport outcome, and the loop panics without
touching the rest of its schedule. -/
theorem transport_error_fatal_witness :
    (handle_poll_lambda wRespondOk wConfig wEnvPollFail).2 = Except.error "connection refused" ∧
    (handle_poll_lambda wRespondOk wConfig wEnvPostFail).2 = wEnvPostFail.post_result ∧
    run_loop wRespondOk wConfig (wEnvPollFail :: [wEnvOk]) =
      ((handle_poll_lambda wRespondOk wConfig wEnvPollFail).1,
       LoopResult.panicked "connection refused") :=
  ⟨(transport_error_fatal wRespondOk wConfig wEnvPollFail [] "connection refused").1 rfl,
   (transport_error_fatal wRespondOk wConfig wEnvPostFail [] "broken pipe").2.1
     ⟨Effect.postResponse (response_route "abc123")
        (LambdaResponse.from_response RequestOrigin.apiGatewayV2 200 [] LambdaBody.empty),
      by decide, by decide⟩,
   (transport_error_fatal wRespondOk wConfig wEnvPollFail [wEnvOk] "connection refused").2.2
     (by decide)⟩

/-- Witness for C4: fidelity evaluated on concrete text and binary bodies. -/
theorem body_variant_fidelity_witness :
    (decode_body (LambdaBody.text "hi")).into_string = Except.ok "hi" ∧
    (decode_body (LambdaBody.binary [0, 255])).bytes = [0, 255] ∧
    decode_body (LambdaBody.text "hi") ≠ decode_body (LambdaBody.binary [104, 105]) :=
  ⟨(body_variant_fidelity "hi" [0, 255]).2.2.2.1,
   (body_variant_fidelity "hi" [0, 255]).2.2.2.2.1,
   (body_variant_fidelity "hi" [104, 105]).2.2.2.2.2.2.1⟩

/-- Witness for C5: a known-empty body encodes as `Empty`; a body not known
to be empty encodes as the text of its contents. -/
theorem empty_vs_missing_body_witness :
    encode_body (Body.from_string "") = Except.ok LambdaBody.empty ∧
    encode_body wBodyHi = (wBodyHi.into_string).map LambdaBody.text ∧
    encode_body wBodyHi = Except.ok (LambdaBody.text "hi") :=
  ⟨(empty_vs_missing_body (Body.from_string "") "").1 (by decide),
   (empty_vs_missing_body wBodyHi "").2.1 (by decide),
   by decide⟩

/-- Witness for C6: multiplicity-preserving translation of a multimap with
a repeated name. -/
theorem header_multimap_fidelity_witness :
    translate_headers [("a", ["1", "2"]), ("a", ["1"])] =
      ([("a", ["1", "2"]), ("a", ["1"])].map (fun p => p.2.map (fun w => (p.1, w)))).flatten ∧
    (translate_headers [("a", ["1", "2"]), ("a", ["1"])]).count ("a", "1") =
      ([("a", ["1", "2"]), ("a", ["1"])].map
        (fun p => if p.1 = "a" then p.2.count "1" else 0)).sum :=
  header_multimap_fidelity [("a", ["1", "2"]), ("a", ["1"])] "a" "1"

/-- Witness for C7 (amended): the diagnostic of a concrete handler error. -/
theorem diagnostic_encoding_total_witness :
    (diagnostic_res { status := 404, message := "no route" }).error_type ≠ "" ∧
    (diagnostic_res { status := 404, message := "no route" }).error_message = "no route" :=
  ⟨(diagnostic_encoding_total { status := 404, message := "no route" }).2.1,
   (diagnostic_encoding_total { status := 404, message := "no route" }).2.2⟩

/-- Witness for C8: the state machine evaluated on concrete servers. -/
theorem bind_accept_state_machine_witness :
    (∃ msg, (LambdaListener.new wConfig).accept [wEnvOk] = StepResult.panic msg) ∧
    (LambdaListener.new wConfig).bind wRespondOk =
      StepResult.ok { config := wConfig, server := some wRespondOk, info := none } ∧
    (∃ msg, LambdaListener.bind { config := wConfig, server := some wRespondOk, info := none }
      wRespondErr = StepResult.panic msg) ∧
    LambdaListener.accept { config := wConfig, server := some wRespondOk, info := none } [wEnvOk] =
      StepResult.ok (run_loop wRespondOk wConfig [wEnvOk]) :=
  bind_accept_state_machine wConfig wRespondOk wRespondErr [wEnvOk]

/-- Witness for C9: a concrete run satisfies the sequencing discipline and
its successful iteration completed its POST. -/
theorem at_most_one_in_flight_witness :
    SeqOk (run_loop wRespondOk wConfig [wEnvOk]).1 ∧
    (wEnvOk.post_result = Except.ok () ∧
      ∃ p, p.isPost = true ∧
        (handle_poll_lambda wRespondOk wConfig wEnvOk).1 = [Effect.pollNext, p]) :=
  ⟨(at_most_one_in_flight wRespondOk wConfig [wEnvOk]).1,
   (at_most_one_in_flight wRespondOk wConfig [wEnvOk]).2 wEnvOk (by decide)⟩

/-- Witness for C10: the error POST of a concrete failing run carries the
constant static type name. -/
theorem error_type_is_static_type_name_witness :
    type_name_of { status := 404, message := "no route" } =
      type_name_of { status := 500, message := "" } ∧
    ((diagnostic_res { status := 404, message := "no route" }).error_type =
        "http_types::error::Error" ∧
      ∃ err : Error, diagnostic_res { status := 404, message := "no route" } = diagnostic_res err ∧
        (diagnostic_res { status := 404, message := "no route" }).error_message = err.message) :=
  ⟨(error_type_is_static_type_name { status := 404, message := "no route" }
      { status := 500, message := "" } wRespondErr wConfig wEnvOk (error_route "abc123")
      "lambda-runtime-function-error-type" "unhandled"
      (diagnostic_res { status := 404, message := "no route" })).1,
   (error_type_is_static_type_name { status := 404, message := "no route" }
      { status := 500, message := "" } wRespondErr wConfig wEnvOk (error_route "abc123")
      "lambda-runtime-function-error-type" "unhandled"
      (diagnostic_res { status := 404, message := "no route" })).2.2 (by decide)⟩

end TideLambdaListener
